import Mathlib

/-!
Formal model of the `ConditionalVAE` TensorFlow implementation in
`model_cvae/model.py` (pvcastro/ConditionalVariationalAutoEncoder).

Tensors are shallowly embedded as real-valued functions of natural-number
indices, with the relevant index bounds passed explicitly where a TensorFlow
reduction or contraction needs them.  Machine floating point is idealised by
the real numbers, and TensorFlow library primitives (`tf.nn.conv2d` with SAME
padding, `tf.matmul`, `tf.reduce_sum`, one-hot encoding, static-shape
inference and the feed/fetch discipline of `tf.Session.run`) are modelled
from their documented semantics, since they live in the TensorFlow library
and not in this repository.  Everything specific to the repository (layer
wiring, loss formulas, shape arithmetic, the public methods `reconstruct`,
`encode` and `decode`) is translated directly from `model.py`.
-/

/-- Rank-2 real tensor, indexed (batch, feature). -/
abbrev Tensor2 : Type := ℕ → ℕ → ℝ

/-- Rank-3 real tensor, indexed (height, width, channel): one image sample. -/
abbrev Tensor3 : Type := ℕ → ℕ → ℕ → ℝ

/-- Rank-4 real tensor, indexed (batch, height, width, channel). -/
abbrev Tensor4 : Type := ℕ → ℕ → ℕ → ℕ → ℝ

/-- Translation of `image_size` (model.py, lines 7-8):
`int(np.ceil(_shape[i] / stride[i]))` for the two spatial dimensions, with
exact rational division standing in for numpy float division. -/
def image_size (shape stride : ℕ × ℕ) : ℕ × ℕ :=
  (⌈(shape.1 : ℚ) / (stride.1 : ℚ)⌉₊, ⌈(shape.2 : ℚ) / (stride.2 : ℚ)⌉₊)

/-- Output size of one spatial dimension of a SAME-padded strided
convolution, as computed by TensorFlow shape inference: `ceil(n / s)`,
written with natural-number ceiling division. -/
def conv_same_out (n s : ℕ) : ℕ := (n + s - 1) / s

/-- Amount of zero padding that TensorFlow SAME padding inserts before
(top / left of) one spatial dimension of size `n`, for kernel size `k`
and stride `s`. -/
def same_pad_beg (n k s : ℕ) : ℕ := ((conv_same_out n s - 1) * s + k - n) / 2

/-- Translation of `convolution` (model.py, lines 11-17) specialised to one
sample: a SAME-padded strided 2-d convolution (`tf.nn.conv2d`) followed by a
bias add.  `inH`, `inW`, `inC` are the input height, width and channel
counts, `k` the kernel size and `s` the stride; reads outside the valid
input range are the zeros supplied by SAME padding. -/
def convolution (inH inW inC k s : ℕ) (w : Tensor4) (bias : ℕ → ℝ)
    (x : Tensor3) : Tensor3 :=
  fun i j co =>
    (∑ di ∈ Finset.range k, ∑ dj ∈ Finset.range k, ∑ ci ∈ Finset.range inC,
      (if same_pad_beg inH k s ≤ i * s + di ∧
          i * s + di < inH + same_pad_beg inH k s ∧
          same_pad_beg inW k s ≤ j * s + dj ∧
          j * s + dj < inW + same_pad_beg inW k s then
        x (i * s + di - same_pad_beg inH k s) (j * s + dj - same_pad_beg inW k s) ci
      else 0) * w di dj ci co) + bias co

/-- Translation of `full_connected` (model.py, lines 31-37):
`tf.matmul(x, weight) + bias` for a single sample (one row of the batch).
`nIn` is the input size (the contracted dimension). -/
def full_connected (nIn : ℕ) (w : Tensor2) (bias : ℕ → ℝ) (x : ℕ → ℝ) : ℕ → ℝ :=
  fun j => (∑ i ∈ Finset.range nIn, x i * w i j) + bias j

/-- Row-major flattening of one (height, width, channel) sample, as performed
by `slim.flatten`: position `(i, j, k)` of a `(·, w, c)`-shaped sample maps
to flat index `(i * w + j) * c + k`. -/
def flatten (w c : ℕ) (x : Tensor3) : ℕ → ℝ :=
  fun n => x (n / (w * c)) (n / c % w) (n % c)

/-- Translation of `reconstruction_loss` (model.py, lines 40-48), applied to
rank-4 image tensors as in `_create_network`: the elementwise Bernoulli term
`original * log(1e-10 + reconstruction) + (1 - original) * log(1e-10 + 1 - reconstruction)`
is reduced by `tf.reduce_sum(_tmp, 1)`, i.e. summed over axis 1 only (the
height axis, of size `h`), and negated.  The result still has free width and
channel indices. -/
noncomputable def reconstruction_loss (h : ℕ) (original reconstruction : Tensor4) :
    ℕ → ℕ → ℕ → ℝ :=
  fun b j k =>
    -∑ i ∈ Finset.range h,
      (original b i j k * Real.log (1e-10 + reconstruction b i j k) +
        (1 - original b i j k) * Real.log (1e-10 + 1 - reconstruction b i j k))

/-- Per-sample Bernoulli negative log-likelihood as the specification words
it: the same elementwise term as `reconstruction_loss`, but summed over every
non-batch index (all of height `h`, width `w` and channel `c`), yielding one
scalar per sample.  Stated for comparison with `reconstruction_loss`. -/
noncomputable def reconstruction_loss_spec (h w c : ℕ) (original reconstruction : Tensor4) :
    ℕ → ℝ :=
  fun b =>
    -∑ i ∈ Finset.range h, ∑ j ∈ Finset.range w, ∑ k ∈ Finset.range c,
      (original b i j k * Real.log (1e-10 + reconstruction b i j k) +
        (1 - original b i j k) * Real.log (1e-10 + 1 - reconstruction b i j k))

/-- Translation of `latent_loss` (model.py, lines 51-57), applied to the
rank-2 tensors `z_mean` and `z_log_sigma_sq` of shape (batch, n_z):
`-0.5 * tf.reduce_sum(1 + latent_log_sigma_sq - tf.square(latent_mean) - tf.exp(latent_log_sigma_sq), 1)`.
Axis 1 is the latent axis, of size `n_z`. -/
noncomputable def latent_loss (n_z : ℕ) (latent_mean latent_log_sigma_sq : Tensor2) : ℕ → ℝ :=
  fun b =>
    -0.5 * ∑ j ∈ Finset.range n_z,
      (1 + latent_log_sigma_sq b j - latent_mean b j ^ 2 -
        Real.exp (latent_log_sigma_sq b j))

/-- Parameter initializers importable from `tensorflow.contrib.layers`
(model.py, line 2). -/
inductive Initializer
  | variance_scaling
  | xavier_conv2d
  | xavier
deriving DecidableEq, Repr

/-- Substring test on character lists, modelling the Python expression
`sub in s` for strings: true when `sub` occurs contiguously in the list. -/
def hasSubstring (sub : List Char) : List Char → Bool
  | [] => sub.isEmpty
  | c :: rest => sub.isPrefixOf (c :: rest) || hasSubstring sub rest

/-- Translation of the initializer choice in `ConditionalVAE.__init__`
(model.py, lines 91-95): if the activation function's `__name__` contains
the substring "relu", both the convolutional initializer `initializer_c`
and the dense initializer `initializer` are variance-scaling initializers,
otherwise they are the conv2d and plain Xavier initializers. -/
def choose_initializers (activation_name : String) : Initializer × Initializer :=
  if hasSubstring "relu".toList activation_name.toList then
    (Initializer.variance_scaling, Initializer.variance_scaling)
  else
    (Initializer.xavier_conv2d, Initializer.xavier)

/-- Configuration of a `ConditionalVAE` instance: the label cardinality and
batch size passed to `__init__`, and the `n_input` (height, width, channels)
and `n_z` entries of the network-architecture dictionary. -/
structure Config where
  label_size : ℕ
  batch_size : ℕ
  n_input : ℕ × ℕ × ℕ
  n_z : ℕ
deriving DecidableEq

/-- Default configuration: `ConditionalVAE(10)` with the default
architecture dictionary `n_input=[28, 28, 1]`, `n_z=20` and the default
`batch_size=100`. -/
def default_config : Config := ⟨10, 100, (28, 28, 1), 20⟩

/-- Weight and bias variables allocated by the encoder layers of
`_create_network`: three 5×5 convolutions and the final dense layer. -/
structure EncoderParams where
  w1 : Tensor4
  b1 : ℕ → ℝ
  w2 : Tensor4
  b2 : ℕ → ℝ
  w3 : Tensor4
  b3 : ℕ → ℝ
  wd : Tensor2
  bd : ℕ → ℝ

/-- Conditional input built in `_create_network` (model.py, lines 121-127)
for one sample: the one-hot encoding of label `y` is broadcast over the
spatial grid and concatenated with the image along the channel axis, so
channels below `c` read the image and channel `c + l` reads
`one_hot(y)[l]`. -/
def conditional_input (c label_size : ℕ) (x : Tensor3) (y : ℕ) : Tensor3 :=
  fun i j ch => if ch < c then x i j ch else if ch - c = y ∧ ch - c < label_size then 1 else 0

/-- Output of the encoder's final fully-connected layer for one sample
(model.py, lines 129-141): three SAME-padded stride-2 convolutions with
channel depths 16, 32 and 64, each followed by the activation `act`, then
flattening and a dense layer down to `n_z` units.  This is the tensor the
code calls `_layer` on line 141, before any output activation. -/
def encoder_dense (cfg : Config) (act : ℝ → ℝ) (p : EncoderParams)
    (x : Tensor3) (y : ℕ) : ℕ → ℝ :=
  let d0 := cfg.n_input.1
  let d1 := cfg.n_input.2.1
  let c := cfg.n_input.2.2
  let ch := c + cfg.label_size
  let a1 := conv_same_out d0 2
  let b1 := conv_same_out d1 2
  let a2 := conv_same_out a1 2
  let b2 := conv_same_out b1 2
  let a3 := conv_same_out a2 2
  let b3 := conv_same_out b2 2
  let l0 := conditional_input c cfg.label_size x y
  let l1 := fun i j co => act (convolution d0 d1 ch 5 2 p.w1 p.b1 l0 i j co)
  let l2 := fun i j co => act (convolution a1 b1 16 5 2 p.w2 p.b2 l1 i j co)
  let l3 := fun i j co => act (convolution a2 b2 32 5 2 p.w3 p.b3 l2 i j co)
  full_connected (a3 * b3 * 64) p.wd p.bd (flatten b3 64 l3)

/-- Latent mean `self.z_mean` (model.py, line 142): the activation applied
to the encoder's dense-layer output, for one sample. -/
def z_mean (cfg : Config) (act : ℝ → ℝ) (p : EncoderParams)
    (x : Tensor3) (y : ℕ) : ℕ → ℝ :=
  fun j => act (encoder_dense cfg act p x y j)

/-- Latent log-variance `self.z_log_sigma_sq` (model.py, line 143): again
the activation applied to the encoder's dense-layer output `_layer`, for
one sample. -/
def z_log_sigma_sq (cfg : Config) (act : ℝ → ℝ) (p : EncoderParams)
    (x : Tensor3) (y : ℕ) : ℕ → ℝ :=
  fun j => act (encoder_dense cfg act p x y j)

/-- Batch version of `z_mean`: row `b` encodes image `xs b` with label
`ys b`. -/
def z_mean_batch (cfg : Config) (act : ℝ → ℝ) (p : EncoderParams)
    (xs : ℕ → Tensor3) (ys : ℕ → ℕ) : Tensor2 :=
  fun b j => z_mean cfg act p (xs b) (ys b) j

/-- Batch version of `z_log_sigma_sq`. -/
def z_log_sigma_sq_batch (cfg : Config) (act : ℝ → ℝ) (p : EncoderParams)
    (xs : ℕ → Tensor3) (ys : ℕ → ℕ) : Tensor2 :=
  fun b j => z_log_sigma_sq cfg act p (xs b) (ys b) j

/-- Sampled latent code `self.z` (model.py, lines 145-148):
`tf.add(self.z_mean, tf.multiply(tf.sqrt(tf.exp(self.z_log_sigma_sq)), eps))`
with `eps` the standard-normal noise tensor of shape (batch, n_z), all
operations elementwise. -/
noncomputable def z_sample (cfg : Config) (act : ℝ → ℝ) (p : EncoderParams)
    (xs : ℕ → Tensor3) (ys : ℕ → ℕ) (eps : Tensor2) : Tensor2 :=
  fun b j =>
    z_mean_batch cfg act p xs ys b j +
      Real.sqrt (Real.exp (z_log_sigma_sq_batch cfg act p xs ys b j)) * eps b j

/-- Spatial target shapes appearing in the decoder of `_create_network`
(model.py, lines 155-169): the shape the dense output is reshaped to, and
the explicit `output_shape` arguments of the two deconvolutions. -/
structure DecoderShapes where
  fc_reshape : ℕ × ℕ
  deconv1_out : ℕ × ℕ
  deconv2_out : ℕ × ℕ
deriving DecidableEq

/-- Decoder shape arithmetic of `_create_network` (model.py, lines 155-169):
`_w1, _h1 = image_size([_w0, _h0], [2, 2])`, `_w2, _h2 = image_size([_w1, _h1], [2, 2])`;
the dense output is reshaped to `(_w2, _h2, 16)`, deconvolution 1 targets
`(_w1, _h1)` and deconvolution 2 targets the input size `(_w0, _h0)`. -/
def decoder_shapes (n_input : ℕ × ℕ) : DecoderShapes :=
  let wh1 := image_size n_input (2, 2)
  let wh2 := image_size wh1 (2, 2)
  ⟨wh2, wh1, n_input⟩

/-- Spatial size after `m` of the encoder's stride-2 SAME convolutions, as
inferred by TensorFlow: each stage performs a ceiling division of both
spatial dimensions by the stride 2. -/
def encoder_stage_size (n_input : ℕ × ℕ) : ℕ → ℕ × ℕ
  | 0 => n_input
  | m + 1 =>
    let p := encoder_stage_size n_input m
    (conv_same_out p.1 2, conv_same_out p.2 2)

/-- Nodes of the computation graph built by `_create_network`, named after
the tensors they model; `x` and `y` are the two placeholders. -/
inductive GraphTensor
  | x
  | y
  | encLabel
  | encInput
  | encConv1
  | encConv2
  | encConv3
  | encDense
  | zMeanT
  | zLogSigmaSqT
  | epsT
  | zT
  | decLabel
  | decInput
  | decFc
  | decDeconv1
  | decDeconv2
  | xDecoderMeanT
  | lossT
  | trainT
deriving DecidableEq, Repr

/-- Direct dependencies of each graph tensor, read off the wiring of
`_create_network`: e.g. the decoder input concatenates the sampled latent
code with the one-hot label, and the loss combines the reconstruction and
latent losses. -/
def tdeps : GraphTensor → List GraphTensor
  | .x => []
  | .y => []
  | .encLabel => [.y]
  | .encInput => [.x, .encLabel]
  | .encConv1 => [.encInput]
  | .encConv2 => [.encConv1]
  | .encConv3 => [.encConv2]
  | .encDense => [.encConv3]
  | .zMeanT => [.encDense]
  | .zLogSigmaSqT => [.encDense]
  | .epsT => []
  | .zT => [.zMeanT, .zLogSigmaSqT, .epsT]
  | .decLabel => [.y]
  | .decInput => [.zT, .decLabel]
  | .decFc => [.decInput]
  | .decDeconv1 => [.decFc]
  | .decDeconv2 => [.decDeconv1]
  | .xDecoderMeanT => [.decDeconv2]
  | .lossT => [.x, .xDecoderMeanT, .zMeanT, .zLogSigmaSqT]
  | .trainT => [.lossT]

/-- Placeholder test: `self.x` and `self.y` are the only `tf.placeholder`
tensors in the graph. -/
def isPlaceholderT : GraphTensor → Bool
  | .x => true
  | .y => true
  | _ => false

/-- Fuel-bounded depth-first traversal of the dependency graph, collecting
every tensor reachable from the frontier without passing through a fed
tensor (feeding a tensor prunes its subgraph, as in `tf.Session.run`). -/
def depsClosure (fed : List GraphTensor) :
    ℕ → List GraphTensor → List GraphTensor → List GraphTensor
  | 0, _, visited => visited
  | _ + 1, [], visited => visited
  | fuel + 1, t :: rest, visited =>
    if t ∈ visited ∨ t ∈ fed then depsClosure fed fuel rest visited
    else depsClosure fed fuel (tdeps t ++ rest) (t :: visited)

/-- Placeholders whose values `tf.Session.run` would still require in order
to evaluate `fetch` given that the tensors in `fed` are fed: the
placeholders reachable from `fetch` without passing through a fed tensor.
Running with a nonempty result raises the "must feed a value for
placeholder tensor" error. -/
def neededPlaceholders (fed : List GraphTensor) (fetch : GraphTensor) :
    List GraphTensor :=
  (depsClosure fed 1000 [fetch] []).filter isPlaceholderT

/-- Static shape, with `none` for an unknown dimension, assigned by
TensorFlow shape inference to each tensor of `_create_network` under
configuration `cfg`.  In particular `self.x` has shape
`[None] + n_input` (line 118) and `self.z` has shape
`(batch_size, n_z)`, inherited from the noise tensor `eps` (line 146). -/
def staticShape (cfg : Config) : GraphTensor → List (Option ℕ)
  | .x => [none, some cfg.n_input.1, some cfg.n_input.2.1, some cfg.n_input.2.2]
  | .y => [none]
  | .encLabel => [some cfg.batch_size, some cfg.n_input.1, some cfg.n_input.2.1,
      some cfg.label_size]
  | .encInput => [some cfg.batch_size, some cfg.n_input.1, some cfg.n_input.2.1,
      some (cfg.n_input.2.2 + cfg.label_size)]
  | .encConv1 => [some cfg.batch_size, some (conv_same_out cfg.n_input.1 2),
      some (conv_same_out cfg.n_input.2.1 2), some 16]
  | .encConv2 => [some cfg.batch_size, some (conv_same_out (conv_same_out cfg.n_input.1 2) 2),
      some (conv_same_out (conv_same_out cfg.n_input.2.1 2) 2), some 32]
  | .encConv3 => [some cfg.batch_size,
      some (conv_same_out (conv_same_out (conv_same_out cfg.n_input.1 2) 2) 2),
      some (conv_same_out (conv_same_out (conv_same_out cfg.n_input.2.1 2) 2) 2), some 64]
  | .encDense => [some cfg.batch_size, some cfg.n_z]
  | .zMeanT => [some cfg.batch_size, some cfg.n_z]
  | .zLogSigmaSqT => [some cfg.batch_size, some cfg.n_z]
  | .epsT => [some cfg.batch_size, some cfg.n_z]
  | .zT => [some cfg.batch_size, some cfg.n_z]
  | .decLabel => [none, some cfg.label_size]
  | .decInput => [some cfg.batch_size, some (cfg.n_z + cfg.label_size)]
  | .decFc => [some cfg.batch_size, some ((decoder_shapes (cfg.n_input.1, cfg.n_input.2.1)).fc_reshape.1 *
      (decoder_shapes (cfg.n_input.1, cfg.n_input.2.1)).fc_reshape.2 * 16)]
  | .decDeconv1 => [some cfg.batch_size,
      some (decoder_shapes (cfg.n_input.1, cfg.n_input.2.1)).deconv1_out.1,
      some (decoder_shapes (cfg.n_input.1, cfg.n_input.2.1)).deconv1_out.2, some 8]
  | .decDeconv2 => [some cfg.batch_size, some cfg.n_input.1, some cfg.n_input.2.1, some 1]
  | .xDecoderMeanT => [some cfg.batch_size, some cfg.n_input.1, some cfg.n_input.2.1, some 1]
  | .lossT => []
  | .trainT => []

/-- Compatibility of the concrete shape of a fed value with a tensor's
static shape, as checked by `tf.Session.run` before executing the graph:
the ranks must agree and every known dimension must match exactly. -/
def shapeCompat : List (Option ℕ) → List ℕ → Bool
  | [], [] => true
  | none :: s, _ :: v => shapeCompat s v
  | some d :: s, dv :: v => d == dv && shapeCompat s v
  | _, _ => false

/-- Errors `tf.Session.run` can raise in this model: a fed value whose
shape is incompatible with its tensor's static shape, or an unfed
placeholder required by the fetched subgraph. -/
inductive RunError
  | feedShape (t : GraphTensor)
  | missingPlaceholder (t : GraphTensor)
deriving DecidableEq, Repr

/-- Errors a public method call can raise: the Python `assert` in
`reconstruct`, or an error propagated from `tf.Session.run`. -/
inductive CallError
  | assertionError
  | runError (e : RunError)
deriving DecidableEq, Repr

/-- Model of `self.sess.run(fetch, feed_dict)` acting on the parameter
state `params` of type `P`.  Feeds carry the concrete shape of the supplied
numpy value.  The client first validates every fed value's shape against
the corresponding tensor's static shape, then requires every placeholder of
the pruned fetched subgraph to be fed; if both checks pass, the run
succeeds, and it mutates the variables (through `optStep`, the optimizer
update built by `create_train_op`) exactly when the fetched node is the
training op. -/
def sessRun {P : Type} (cfg : Config) (params : P) (optStep : P → P)
    (fetch : GraphTensor) (feeds : List (GraphTensor × List ℕ)) :
    Except RunError Unit × P :=
  match feeds.find? (fun f => ! shapeCompat (staticShape cfg f.1) f.2) with
  | some f => (Except.error (RunError.feedShape f.1), params)
  | none =>
    match neededPlaceholders (feeds.map Prod.fst) fetch with
    | p :: _ => (Except.error (RunError.missingPlaceholder p), params)
    | [] => (Except.ok (), if fetch = GraphTensor.trainT then optStep params else params)

/-- Translation of `ConditionalVAE.reconstruct` (model.py, lines 186-189):
`assert len(inputs) == self.batch_size`, then
`self.sess.run(self.x_decoder_mean, feed_dict={self.x: inputs})`.  The fed
numpy batch of `len(inputs)` images has shape
`[len(inputs)] + n_input`. -/
def reconstruct {P I : Type} (cfg : Config) (params : P) (optStep : P → P)
    (inputs : List I) : Except CallError Unit × P :=
  if inputs.length = cfg.batch_size then
    let r := sessRun cfg params optStep GraphTensor.xDecoderMeanT
      [(GraphTensor.x,
        [inputs.length, cfg.n_input.1, cfg.n_input.2.1, cfg.n_input.2.2])]
    (r.1.mapError CallError.runError, r.2)
  else (Except.error CallError.assertionError, params)

/-- Translation of `ConditionalVAE.encode` (model.py, lines 191-193):
`self.sess.run(self.z_mean, feed_dict={self.x: inputs})`. -/
def encode {P I : Type} (cfg : Config) (params : P) (optStep : P → P)
    (inputs : List I) : Except CallError Unit × P :=
  let r := sessRun cfg params optStep GraphTensor.zMeanT
    [(GraphTensor.x,
      [inputs.length, cfg.n_input.1, cfg.n_input.2.1, cfg.n_input.2.2])]
  (r.1.mapError CallError.runError, r.2)

/-- Translation of `ConditionalVAE.decode` (model.py, lines 195-201).  The
argument carries the shape of the supplied latent numpy array, `none`
meaning the default `z=None`; in that case
`z = np.random.normal(size=self.network_architecture["n_z"])` is a rank-1
array of shape `[n_z]` drawn from the standard normal prior.  The chosen
value is then fed for the tensor `self.z` in
`self.sess.run(self.x_decoder_mean, feed_dict={self.z: z})`. -/
def decode {P : Type} (cfg : Config) (params : P) (optStep : P → P)
    (zshape : Option (List ℕ)) : Except CallError Unit × P :=
  let zv : List ℕ :=
    match zshape with
    | none => [cfg.n_z]
    | some s => s
  let r := sessRun cfg params optStep GraphTensor.xDecoderMeanT
    [(GraphTensor.zT, zv)]
  (r.1.mapError CallError.runError, r.2)

/-- Ceiling of an exact rational division of naturals agrees with
natural-number ceiling division. -/
theorem ceil_div_nat (a s : ℕ) (hs : 0 < s) :
    ⌈(a : ℚ) / (s : ℚ)⌉₊ = (a + s - 1) / s := by
  have hsq : (0 : ℚ) < (s : ℚ) := by exact_mod_cast hs
  apply le_antisymm
  · rw [Nat.ceil_le, div_le_iff₀ hsq]
    have hnat : a ≤ (a + s - 1) / s * s := by
      have h1 := Nat.div_add_mod (a + s - 1) s
      have h2 := Nat.mod_lt (a + s - 1) hs
      have h3 : (a + s - 1) / s * s = s * ((a + s - 1) / s) := Nat.mul_comm _ _
      omega
    exact_mod_cast hnat
  · have hc : (a : ℚ) / (s : ℚ) ≤ (⌈(a : ℚ) / (s : ℚ)⌉₊ : ℚ) := Nat.le_ceil _
    rw [div_le_iff₀ hsq] at hc
    have hac : a ≤ ⌈(a : ℚ) / (s : ℚ)⌉₊ * s := by exact_mod_cast hc
    have h4 : (a + s - 1) ≤ s * ⌈(a : ℚ) / (s : ℚ)⌉₊ + (s - 1) := by
      have h5 : ⌈(a : ℚ) / (s : ℚ)⌉₊ * s = s * ⌈(a : ℚ) / (s : ℚ)⌉₊ := Nat.mul_comm _ _
      omega
    calc (a + s - 1) / s ≤ (s * ⌈(a : ℚ) / (s : ℚ)⌉₊ + (s - 1)) / s :=
          Nat.div_le_div_right h4
      _ ≤ ⌈(a : ℚ) / (s : ℚ)⌉₊ + (s - 1) / s := by rw [Nat.mul_add_div hs]
      _ = ⌈(a : ℚ) / (s : ℚ)⌉₊ := by rw [Nat.div_eq_of_lt (by omega)]; omega

/-- Specialisation of the ceiling-division identity to stride 2, in the
literal-cast form produced by TensorFlow shape goals. -/
theorem ceil_div_two (a : ℕ) : ⌈(a : ℚ) / (2 : ℚ)⌉₊ = (a + 1) / 2 := by
  have h := ceil_div_nat a 2 (by norm_num)
  norm_num at h
  exact h

/-- Running any fetch other than the training op leaves the parameter state
of the session untouched. -/
theorem sessRun_snd_eq {P : Type} (cfg : Config) (params : P) (optStep : P → P)
    (fetch : GraphTensor) (feeds : List (GraphTensor × List ℕ))
    (h : fetch ≠ GraphTensor.trainT) :
    (sessRun cfg params optStep fetch feeds).2 = params := by
  unfold sessRun
  split
  · rfl
  · split
    · rfl
    · simp [h]

/-- C1: for every configuration, activation, parameter assignment, input
image and label, the encoder's latent mean and latent log-variance coincide:
both are the activation applied to the output of the single shared
fully-connected layer, so `z_mean = z_log_sigma_sq` as functions of the
input. -/
theorem encoder_mean_eq_log_variance (cfg : Config) (act : ℝ → ℝ)
    (p : EncoderParams) (x : Tensor3) (y : ℕ) :
    z_mean cfg act p x y = z_log_sigma_sq cfg act p x y ∧
    z_mean cfg act p x y = fun j => act (encoder_dense cfg act p x y j) :=
  ⟨rfl, rfl⟩

/-- C2 (code bug): with the default configuration (batch size 100),
`reconstruct` fails the assertion exactly when the number of input images
differs from the batch size; but for an input of exactly batch-size images
it does not return a reconstruction either: the fetched tensor
`x_decoder_mean` depends on the label placeholder `y`, which `reconstruct`
never feeds, so the session run fails with a missing-placeholder error. -/
theorem reconstruct_assert_and_missing_label {P I : Type} (params : P)
    (optStep : P → P) (inputs : List I) :
    (inputs.length ≠ 100 →
      reconstruct default_config params optStep inputs =
        (Except.error CallError.assertionError, params)) ∧
    (inputs.length = 100 →
      reconstruct default_config params optStep inputs =
        (Except.error (CallError.runError
          (RunError.missingPlaceholder GraphTensor.y)), params)) := by
  constructor
  · intro h
    simp only [reconstruct, default_config]
    rw [if_neg h]
  · intro h
    simp only [reconstruct, default_config, h]
    rfl

/-- Witness for C2 at concrete inputs: 99 images trip the assertion, 100
images reach the session run and fail on the unfed label placeholder. -/
theorem reconstruct_assert_and_missing_label_witness :
    reconstruct default_config (0 : ℕ) id (List.replicate 99 ()) =
      (Except.error CallError.assertionError, 0) ∧
    reconstruct default_config (0 : ℕ) id (List.replicate 100 ()) =
      (Except.error (CallError.runError
        (RunError.missingPlaceholder GraphTensor.y)), 0) :=
  ⟨(reconstruct_assert_and_missing_label 0 id _).1 (by simp),
    (reconstruct_assert_and_missing_label 0 id _).2 (by simp)⟩

/-- C3 (code bug): `reconstruction_loss` does not equal the per-sample
Bernoulli negative log-likelihood summed over all non-batch dimensions.  On
the all-ones original and reconstruction of shape (batch, 2, 2, 1), the
code's axis-1 reduction gives `-2 * log(1 + 1e-10)` at each remaining
(width, channel) index, while the sum over every height, width and channel
position is `-4 * log(1 + 1e-10)`, and `log(1 + 1e-10) ≠ 0`. -/
theorem reconstruction_loss_not_all_axes :
    reconstruction_loss 2 (fun _ _ _ _ => 1) (fun _ _ _ _ => 1) 0 0 0 ≠
      reconstruction_loss_spec 2 2 1 (fun _ _ _ _ => 1) (fun _ _ _ _ => 1) 0 := by
  have hlog : 0 < Real.log (1e-10 + 1) := Real.log_pos (by norm_num)
  simp only [reconstruction_loss, reconstruction_loss_spec, sub_self, zero_mul,
    one_mul, add_zero, Finset.sum_const, Finset.card_range, nsmul_eq_mul,
    Nat.cast_ofNat, ne_eq, neg_inj]
  intro hcontra
  nlinarith [hlog, hcontra]

/-- C4: `latent_loss` computes, for every sample, `-0.5` times the sum over
the latent dimensions of `1 + log_var - mean^2 - exp(log_var)`, and it
evaluates to `0` for every sample when every component of the mean and of
the log-variance is `0`. -/
theorem latent_loss_formula_and_zero (n : ℕ) (m lv : Tensor2) (b : ℕ) :
    latent_loss n m lv b =
      -0.5 * ∑ j ∈ Finset.range n, (1 + lv b j - m b j ^ 2 - Real.exp (lv b j)) ∧
    latent_loss n (fun _ _ => 0) (fun _ _ => 0) b = 0 :=
  ⟨rfl, by simp [latent_loss, Real.exp_zero]⟩

/-- C5: the sampled latent code is `mean + sqrt(exp(log_var)) * eps`
elementwise, for every input batch, parameter assignment and noise tensor
(the reparameterization trick). -/
theorem z_sample_reparameterization (cfg : Config) (act : ℝ → ℝ)
    (p : EncoderParams) (xs : ℕ → Tensor3) (ys : ℕ → ℕ) (eps : Tensor2)
    (b j : ℕ) :
    z_sample cfg act p xs ys eps b j =
      z_mean_batch cfg act p xs ys b j +
        Real.sqrt (Real.exp (z_log_sigma_sq_batch cfg act p xs ys b j)) *
          eps b j :=
  rfl

/-- C6: the parameter initializers are selected solely from the activation
function's name: if it contains the substring "relu" both the convolutional
and the dense initializers are variance-scaling initializers, otherwise
they are the conv2d and plain Xavier initializers. -/
theorem choose_initializers_by_relu (name : String) :
    (hasSubstring "relu".toList name.toList = true →
      choose_initializers name =
        (Initializer.variance_scaling, Initializer.variance_scaling)) ∧
    (hasSubstring "relu".toList name.toList = false →
      choose_initializers name =
        (Initializer.xavier_conv2d, Initializer.xavier)) := by
  constructor <;> intro h <;> unfold choose_initializers <;> rw [h] <;> simp

/-- Witness for C6: `tf.nn.relu` style names select variance scaling, the
default `softplus` selects Xavier. -/
theorem choose_initializers_by_relu_witness :
    choose_initializers "relu" =
      (Initializer.variance_scaling, Initializer.variance_scaling) ∧
    choose_initializers "softplus" =
      (Initializer.xavier_conv2d, Initializer.xavier) :=
  ⟨(choose_initializers_by_relu "relu").1 (by decide),
    (choose_initializers_by_relu "softplus").2 (by decide)⟩

/-- C7: for positive sizes and strides, `image_size` is coordinatewise
ceiling division; consequently the decoder's first deconvolution targets
the spatial size of the encoder's first stride-2 stage, the dense-output
reshape targets the size of the second stage, and the final deconvolution
targets exactly the configured input width and height. -/
theorem image_size_ceiling_div (w h s1 s2 : ℕ) (hs1 : 0 < s1) (hs2 : 0 < s2) :
    image_size (w, h) (s1, s2) = ((w + s1 - 1) / s1, (h + s2 - 1) / s2) ∧
    (decoder_shapes (w, h)).deconv1_out = encoder_stage_size (w, h) 1 ∧
    (decoder_shapes (w, h)).fc_reshape = encoder_stage_size (w, h) 2 ∧
    (decoder_shapes (w, h)).deconv2_out = (w, h) := by
  have h2 : (0 : ℕ) < 2 := by norm_num
  refine ⟨?_, ?_, ?_, rfl⟩
  · simp [image_size, ceil_div_nat w s1 hs1, ceil_div_nat h s2 hs2]
  · simp [decoder_shapes, encoder_stage_size, image_size, conv_same_out,
      ceil_div_two]
  · simp [decoder_shapes, encoder_stage_size, image_size, conv_same_out,
      ceil_div_two]

/-- Witness for C7 at the default 28×28 input and stride 2. -/
theorem image_size_ceiling_div_witness :
    image_size (28, 28) (2, 2) = ((28 + 2 - 1) / 2, (28 + 2 - 1) / 2) ∧
    (decoder_shapes (28, 28)).deconv2_out = (28, 28) :=
  ⟨(image_size_ceiling_div 28 28 2 2 (by norm_num) (by norm_num)).1,
    (image_size_ceiling_div 28 28 2 2 (by norm_num) (by norm_num)).2.2.2⟩

/-- C8 (code bug): `decode` never returns an image.  With `z=None` it draws
`np.random.normal(size=n_z)`, a rank-1 array of shape `[n_z]`, and feeds it
for the tensor `self.z` of static shape `(batch_size, n_z)`, so the run is
rejected with a feed-shape error; and even a latent value of the correct
shape `(batch_size, n_z)` fails, because the decoder also reads the unfed
label placeholder `y`. -/
theorem decode_feed_errors {P : Type} (params : P) (optStep : P → P) :
    decode default_config params optStep none =
      (Except.error (CallError.runError (RunError.feedShape GraphTensor.zT)),
        params) ∧
    decode default_config params optStep (some [100, 20]) =
      (Except.error (CallError.runError
        (RunError.missingPlaceholder GraphTensor.y)), params) :=
  ⟨rfl, rfl⟩

/-- C9: the public inference methods `reconstruct`, `encode` and `decode`
never fetch the training op, so no matter how often they are called and
with what arguments, the parameter state is left unchanged; only the
optimizer step run by fetching the training op mutates it. -/
theorem inference_preserves_params {P I : Type} (cfg : Config) (params : P)
    (optStep : P → P) (inputs : List I) (zshape : Option (List ℕ)) :
    (reconstruct cfg params optStep inputs).2 = params ∧
    (encode cfg params optStep inputs).2 = params ∧
    (decode cfg params optStep zshape).2 = params := by
  refine ⟨?_, ?_, ?_⟩
  · unfold reconstruct
    split
    · exact sessRun_snd_eq cfg params optStep _ _ (by simp)
    · rfl
  · exact sessRun_snd_eq cfg params optStep _ _ (by simp)
  · exact sessRun_snd_eq cfg params optStep _ _ (by simp)

/-- C10: `latent_loss` is nonnegative for every real mean and log-variance,
and it vanishes exactly when every in-range component of the mean and of
the log-variance is zero, since `1 + t - exp t ≤ 0` with equality only at
`t = 0`. -/
theorem latent_loss_nonneg_iff_zero (n : ℕ) (m lv : Tensor2) (b : ℕ) :
    0 ≤ latent_loss n m lv b ∧
    (latent_loss n m lv b = 0 ↔
      ∀ j ∈ Finset.range n, m b j = 0 ∧ lv b j = 0) := by
  have hterm : ∀ j ∈ Finset.range n,
      (1 + lv b j - m b j ^ 2 - Real.exp (lv b j)) ≤ 0 := by
    intro j _
    have h1 := Real.add_one_le_exp (lv b j)
    nlinarith [sq_nonneg (m b j)]
  have hsum :
      (∑ j ∈ Finset.range n,
        (1 + lv b j - m b j ^ 2 - Real.exp (lv b j))) ≤ 0 :=
    Finset.sum_nonpos hterm
  constructor
  · simp only [latent_loss]
    nlinarith [hsum]
  · simp only [latent_loss]
    constructor
    · intro h0
      have hS :
          (∑ j ∈ Finset.range n,
            (1 + lv b j - m b j ^ 2 - Real.exp (lv b j))) = 0 := by
        nlinarith [hsum, h0]
      have hall := (Finset.sum_eq_zero_iff_of_nonpos hterm).mp hS
      intro j hj
      have hj0 := hall j hj
      have h1 := Real.add_one_le_exp (lv b j)
      have hm2 : m b j ^ 2 = 0 := by nlinarith [sq_nonneg (m b j)]
      have hm : m b j = 0 := sq_eq_zero_iff.mp hm2
      refine ⟨hm, ?_⟩
      by_contra hne
      have h2 := Real.add_one_lt_exp hne
      nlinarith
    · intro hall
      have hz : ∀ j ∈ Finset.range n,
          (1 + lv b j - m b j ^ 2 - Real.exp (lv b j)) = 0 := by
        intro j hj
        obtain ⟨h1, h2⟩ := hall j hj
        rw [h1, h2]
        simp [Real.exp_zero]
      rw [Finset.sum_eq_zero hz]
      ring
